import Mathlib

/-!
Verification of the conversation state machine (`Session`), the archive
retriever (`downloadExportResultArchive`), and the diff model of the
aws-toolkit-vscode weaverbird / code-transform subsystems, as a shallow
embedding in Lean 4.

Byte buffers are modelled as `List Nat`, asynchronous streams as finite
lists of chunk events, and thrown exceptions as `Except` results.  The
telemetry emission and logging side effects carry no data relevant to the
verified properties and are omitted.
-/

/-! ## Archive retriever (`downloadExportResultArchive`) -/

/-- A `binaryPayloadEvent` carried by a stream chunk; its `bytes` field may
be absent, mirroring the optional `bytes` of the streaming SDK event. -/
structure BinaryPayloadEvent where
  bytes : Option (List Nat)
deriving DecidableEq

/-- One chunk of the response stream: it either carries a
`binaryPayloadEvent` or is some other kind of event (modelled as
`binaryPayloadEvent = none`). -/
structure ArchiveChunk where
  binaryPayloadEvent : Option BinaryPayloadEvent
deriving DecidableEq

/-- The error message thrown when the response has no body stream. -/
def emptyResponseMessage : String :=
  "Empty response from Amazon Q inline suggestions streaming service"

/-- The loop body of `downloadExportResultArchive`: push the chunk's bytes
onto the buffer and add their length to the running total, but only when
the chunk carries a `binaryPayloadEvent` whose `bytes` field is present. -/
def downloadStep (acc : List (List Nat) × Nat) (chunk : ArchiveChunk) :
    List (List Nat) × Nat :=
  match chunk.binaryPayloadEvent with
  | some ev =>
    match ev.bytes with
    | some bs => (acc.1 ++ [bs], acc.2 + bs.length)
    | none => acc
  | none => acc

/-- Shallow embedding of `downloadExportResultArchive`.  The response body
is `none` when the response carries no stream at all, and `some chunks`
otherwise.  On success the result is the pair (bytes written to `toPath`
by `fs.writeFile`, `totalDownloadBytes` reported to telemetry); the error
result is produced before any write happens, so no file content exists in
that case. -/
def downloadExportResultArchive (body : Option (List ArchiveChunk)) :
    Except String (List Nat × Nat) :=
  match body with
  | none => .error emptyResponseMessage
  | some chunks =>
    let acc := chunks.foldl downloadStep ([], 0)
    .ok (acc.1.flatten, acc.2)

/-- The binary-payload fragments of a chunk sequence, in arrival order:
one fragment per chunk that carries a `binaryPayloadEvent` with a present
`bytes` field. -/
def binaryPayloadFragments (chunks : List ArchiveChunk) : List (List Nat) :=
  chunks.filterMap (fun c => c.binaryPayloadEvent.bind BinaryPayloadEvent.bytes)

lemma downloadStep_fragments (chunks : List ArchiveChunk) :
    ∀ acc : List (List Nat) × Nat,
      chunks.foldl downloadStep acc =
        (acc.1 ++ binaryPayloadFragments chunks,
          acc.2 + ((binaryPayloadFragments chunks).flatten).length) := by
  induction chunks with
  | nil => intro acc; simp [binaryPayloadFragments]
  | cons c cs ih =>
    intro acc
    match hc : c.binaryPayloadEvent with
    | some ev =>
      match hb : ev.bytes with
      | some bs =>
        simp only [List.foldl_cons, downloadStep, hc, hb, ih, binaryPayloadFragments,
          List.filterMap_cons, Option.bind_eq_bind, Option.some_bind]
        rw [Prod.ext_iff]
        constructor
        · simp
        · simp [List.flatten_cons]; omega
      | none =>
        simp [List.foldl_cons, downloadStep, hc, hb, ih, binaryPayloadFragments,
          List.filterMap_cons]
    | none =>
      simp [List.foldl_cons, downloadStep, hc, ih, binaryPayloadFragments,
        List.filterMap_cons]

/-- When a body stream is present, the retriever succeeds with exactly the
flattened payload fragments and a total equal to their combined length. -/
lemma downloadExportResultArchive_some (chunks : List ArchiveChunk) :
    downloadExportResultArchive (some chunks) =
      .ok ((binaryPayloadFragments chunks).flatten,
        ((binaryPayloadFragments chunks).flatten).length) := by
  simp [downloadExportResultArchive, downloadStep_fragments]

/-- Claim C3: for every finite chunk sequence consumed by the archive
retriever, the persisted file content equals the concatenation, in arrival
order, of exactly the binary-payload fragments (non-payload chunks
contribute zero bytes), and the reported total byte count equals the
length of the persisted content. -/
theorem downloadExportResultArchive_persists_payload_concat
    (chunks : List ArchiveChunk) :
    downloadExportResultArchive (some chunks) =
      .ok ((binaryPayloadFragments chunks).flatten,
        ((binaryPayloadFragments chunks).flatten).length) :=
  downloadExportResultArchive_some chunks

/-- Claim C4: the retriever errors exactly when the response has no body
stream; a present body yielding zero chunks is not an error and persists a
zero-length file.  The error is raised before the write, so the error
result carries no file content. -/
theorem downloadExportResultArchive_empty_response_iff
    (body : Option (List ArchiveChunk)) :
    (downloadExportResultArchive body).isOk = body.isSome ∧
    downloadExportResultArchive none = .error emptyResponseMessage ∧
    downloadExportResultArchive (some []) = .ok ([], 0) := by
  refine ⟨?_, rfl, by simp [downloadExportResultArchive_some, binaryPayloadFragments]⟩
  cases body with
  | none => rfl
  | some chunks => rw [downloadExportResultArchive_some chunks]; rfl

/-- Claim C10: a chunk that is a binary-payload event whose `bytes` field
is absent is skipped — removing it from the stream changes neither the
persisted content nor the reported total, and it raises no error. -/
theorem downloadExportResultArchive_skips_byteless_payload
    (pre post : List ArchiveChunk) :
    downloadExportResultArchive
        (some (pre ++ [{ binaryPayloadEvent := some { bytes := none } }] ++ post)) =
      downloadExportResultArchive (some (pre ++ post)) := by
  have hfrag : binaryPayloadFragments
      (pre ++ [{ binaryPayloadEvent := some { bytes := none } }] ++ post) =
      binaryPayloadFragments (pre ++ post) := by
    simp [binaryPayloadFragments, List.filterMap_append]
  rw [downloadExportResultArchive_some, downloadExportResultArchive_some, hfrag]

/-! ## Conversation state machine (`Session`) -/

/-- One interaction record returned to the chat caller. -/
structure Interaction where
  origin : String
  type : String
  content : String
deriving DecidableEq

/-- A session state object (`RefinementState` / `CodeGenState`).  The
variant tag, the approach, the optional conversation id and this state's
own cancellation token (tracked as a cancelled flag) are the fields the
state machine reads or writes. -/
structure SessionState where
  isCodeGen : Bool
  approach : String
  conversationId : Option String
  tokenCancelled : Bool
deriving DecidableEq

/-- `new RefinementState(config, approach)`: fresh token, no conversation
id yet. -/
def RefinementState.new (approach : String) : SessionState :=
  { isCodeGen := false, approach := approach, conversationId := none,
    tokenCancelled := false }

/-- `new CodeGenState({...config, conversationId}, approach)`: fresh
token, seeded conversation id and approach. -/
def CodeGenState.new (conversationId : String) (approach : String) : SessionState :=
  { isCodeGen := true, approach := approach, conversationId := some conversationId,
    tokenCancelled := false }

/-- JavaScript truthiness of `state.conversationId`: `undefined` and the
empty string are both falsy. -/
def SessionState.conversationIdTruthy (st : SessionState) : Bool :=
  match st.conversationId with
  | none => false
  | some cid => cid != ""

/-- An error thrown during a turn.  `conversationIdNotFound` models
`ConversationIdNotFoundError`; `raised` models any other thrown value via
the `code`, `statusCode` and `message` fields that `send` reads off it. -/
inductive SessionError where
  | conversationIdNotFound
  | raised (code : String) (statusCode : String) (message : String)
deriving DecidableEq

def SessionError.codeString : SessionError → String
  | .conversationIdNotFound => "ConversationIdNotFoundError"
  | .raised c _ _ => c

def SessionError.statusCodeString : SessionError → String
  | .conversationIdNotFound => "undefined"
  | .raised _ s _ => s

def SessionError.messageString : SessionError → String
  | .conversationIdNotFound => "Conversation id must exist before starting code generation"
  | .raised _ _ m => m

/-- The arguments the machine passes to the active state's `interact`
handler: the collected workspace files, the session task and the optional
turn message.  The file-system capability and the chat sink are opaque
collaborators and carry no verified data. -/
structure InteractArgs where
  files : List String
  task : String
  msg : Option String
deriving DecidableEq

/-- What an `interact` call produces: the state object as the handler
left it (handlers may mutate their own fields), an optional next state to
transition to, and the interactions for the caller. -/
structure InteractResult where
  selfState : SessionState
  nextState : Option SessionState
  interactions : List Interaction
deriving DecidableEq

/-- The `interact` behaviour of the session states.  `RefinementState` and
`CodeGenState` live in `sessionState.ts`, an external collaborator of the
machine; a `Handler` is any such behaviour, returning either a result or a
thrown error. -/
def Handler : Type :=
  SessionState → InteractArgs → Except SessionError InteractResult

/-- The session aggregate: current state, task and approach. -/
structure Session where
  _state : SessionState
  task : String
  approach : String
deriving DecidableEq

/-- The `state` getter. -/
def Session.state (s : Session) : SessionState := s._state

/-- `new Session(...)`: a fresh `RefinementState` with empty approach,
empty task and empty approach fields. -/
def Session.new : Session :=
  { _state := RefinementState.new "", task := "", approach := "" }

instance {ε α : Type} [DecidableEq ε] [DecidableEq α] : DecidableEq (Except ε α) := fun a b =>
  match a, b with
  | .error e1, .error e2 =>
    if h : e1 = e2 then .isTrue (by rw [h])
    else .isFalse (by intro hh; cases hh; exact h rfl)
  | .error _, .ok _ => .isFalse (by intro hh; cases hh)
  | .ok _, .error _ => .isFalse (by intro hh; cases hh)
  | .ok v1, .ok v2 =>
    if h : v1 = v2 then .isTrue (by rw [h])
    else .isFalse (by intro hh; cases hh; exact h rfl)

/-- The outcome of one machine step: the session as left by the step
(mutations survive a thrown error, as in JavaScript), the state objects
that were replaced as current during the step — each recorded exactly as
it was at the moment of replacement, in replacement order — and either
the returned interactions or the thrown error. -/
structure StepResult where
  session : Session
  retired : List SessionState
  result : Except SessionError (List Interaction)
deriving DecidableEq

/-- `Session.nextInteraction`: collect files (modelled as the `files`
argument), run the active state's handler, and on a signalled transition
read the current state's approach, cancel the current state's token,
install the next state and propagate the approach onto it and the
session. -/
def Session.nextInteraction (h : Handler) (files : List String) (s : Session)
    (msg : Option String) : StepResult :=
  match h s._state { files := files, task := s.task, msg := msg } with
  | .error e => { session := s, retired := [], result := .error e }
  | .ok r =>
    match r.nextState with
    | some ns =>
      let newApproach := r.selfState.approach
      { session :=
          { s with
            _state := { ns with approach := newApproach },
            approach := newApproach },
        retired := [{ r.selfState with tokenCancelled := true }],
        result := .ok r.interactions }
    | none =>
      { session := { s with _state := r.selfState }, retired := [],
        result := .ok r.interactions }

/-- The fixed acknowledgment returned for the `"CLEAR"` control message. -/
def clearAckInteraction : Interaction :=
  { origin := "ai", type := "message",
    content := "Finished the session for you. Feel free to restart the session by typing the task you want to achieve." }

/-- `Session.sendUnsafe`: handle the `"CLEAR"` control message by
resetting task and approach and installing a fresh `RefinementState`
(without cancelling the outgoing state's token); otherwise capture the
message as the task when the task is still empty and forward the message
to `nextInteraction`. -/
def Session.sendUnsafe (h : Handler) (files : List String) (s : Session)
    (msg : String) : StepResult :=
  if msg = "CLEAR" then
    { session := { s with task := "", approach := "", _state := RefinementState.new "" },
      retired := [s._state],
      result := .ok [clearAckInteraction] }
  else
    let s1 := if s.task = "" then { s with task := msg } else s
    s1.nextInteraction h files (some msg)

/-- The single synthetic interaction `send` builds from a caught error. -/
def errorInteraction (e : SessionError) : Interaction :=
  { origin := "ai", type := "message",
    content := "Received error: " ++ e.codeString ++ " and status code: " ++
      e.statusCodeString ++ " [" ++ e.messageString ++
      "] when trying to send the request to the Weaverbird API" }

/-- `Session.send`: delegate to `sendUnsafe`; a thrown error is caught
and turned into exactly one `ai` message interaction.  Mutations made
before the throw survive, as in the source. -/
def Session.send (h : Handler) (files : List String) (s : Session) (msg : String) :
    StepResult :=
  let u := s.sendUnsafe h files msg
  match u.result with
  | .ok _ => u
  | .error e =>
    { session := u.session, retired := u.retired,
      result := .ok [errorInteraction e] }

/-- `Session.startCodegen`: throw `ConversationIdNotFoundError` when the
current state's conversation id is falsy; otherwise install a
`CodeGenState` seeded with the current state's conversation id and the
session's `approach` field (without cancelling the outgoing state's
token), then run one interaction step with no message. -/
def Session.startCodegen (h : Handler) (files : List String) (s : Session) :
    StepResult :=
  match s._state.conversationId with
  | none =>
    { session := s, retired := [], result := .error .conversationIdNotFound }
  | some cid =>
    if cid = "" then
      { session := s, retired := [], result := .error .conversationIdNotFound }
    else
      let s1 := { s with _state := CodeGenState.new cid s.approach }
      let r := s1.nextInteraction h files none
      { r with retired := s._state :: r.retired }


/-! ### Concrete handler behaviours used to exercise the machine -/

/-- A handler that does nothing: no mutation, no transition, no output. -/
def idleHandler : Handler :=
  fun st _ => .ok { selfState := st, nextState := none, interactions := [] }

/-- A handler that reports the turn message it was given (making the
forwarded message observable), without mutating or transitioning. -/
def probeHandler : Handler :=
  fun st args =>
    .ok { selfState := st, nextState := none,
          interactions := [{ origin := "ai", type := "message",
                             content := args.msg.getD "NO_MESSAGE" }] }

/-- A handler that signals a transition to a fresh `CodeGenState`. -/
def transitionHandler : Handler :=
  fun st _ =>
    .ok { selfState := st, nextState := some (CodeGenState.new "c" "a"),
          interactions := [] }

/-- A handler that, like the real `RefinementState`, updates its own
state's approach and records a conversation id, without signalling a
transition. -/
def setupHandler : Handler :=
  fun st _ =>
    .ok { selfState := { st with approach := "A", conversationId := some "cid" },
          nextState := none, interactions := [] }

/-- A handler whose turn throws. -/
def failHandler : Handler :=
  fun _ _ => .error (.raised "E" "500" "boom")

/-! ### Structural lemmas about the machine -/

/-- `nextInteraction` never changes the session's task. -/
lemma nextInteraction_task (h : Handler) (files : List String) (s : Session)
    (msg : Option String) :
    (Session.nextInteraction h files s msg).session.task = s.task := by
  unfold Session.nextInteraction
  split
  · rfl
  · split <;> rfl

/-- `send` returns the session exactly as `sendUnsafe` left it, whether or
not the step threw. -/
lemma send_session_eq (h : Handler) (files : List String) (s : Session)
    (msg : String) :
    (Session.send h files s msg).session = (Session.sendUnsafe h files s msg).session := by
  unfold Session.send
  cases hu : (Session.sendUnsafe h files s msg).result <;> simp [hu]

/-- When the handler throws, `nextInteraction` leaves the session intact
and retires nothing. -/
lemma nextInteraction_error (h : Handler) (files : List String) (s : Session)
    (msg : Option String) (e : SessionError)
    (he : (Session.nextInteraction h files s msg).result = .error e) :
    Session.nextInteraction h files s msg =
      { session := s, retired := [], result := .error e } := by
  cases hh : h s._state { files := files, task := s.task, msg := msg } with
  | error e2 =>
    unfold Session.nextInteraction at he ⊢
    rw [hh] at he ⊢
    simp only at he ⊢
    injection he with h2
    subst h2
    rfl
  | ok r =>
    unfold Session.nextInteraction at he
    rw [hh] at he
    simp only at he
    cases hn : r.nextState <;> rw [hn] at he <;> simp at he

/-- Claim C1 is false as stated: the `"CLEAR"` reset and the
`startCodegen` install both replace the current state without cancelling
the outgoing state's cancellation token. -/
theorem clear_and_startCodegen_replace_without_cancel_cex :
    (Session.sendUnsafe idleHandler [] Session.new "CLEAR").retired =
        [RefinementState.new ""] ∧
    (RefinementState.new "").tokenCancelled = false ∧
    (Session.startCodegen idleHandler []
        { _state := CodeGenState.new "c" "a", task := "t", approach := "a" }).retired =
      [CodeGenState.new "c" "a"] ∧
    (CodeGenState.new "c" "a").tokenCancelled = false := by
  decide

/-- Claim C1 (amended): only a handler-signalled transition inside
`nextInteraction` cancels the outgoing state's token before installing the
next state; every state retired by `nextInteraction` is cancelled at the
moment of replacement.  The `"CLEAR"` reset and the `startCodegen` install
replace the current state without cancelling it. -/
theorem nextInteraction_cancels_retired (h : Handler) (files : List String)
    (s : Session) (msg : Option String) (st : SessionState)
    (hmem : st ∈ (Session.nextInteraction h files s msg).retired) :
    st.tokenCancelled = true := by
  unfold Session.nextInteraction at hmem
  cases hh : h s._state { files := files, task := s.task, msg := msg } with
  | error e => rw [hh] at hmem; simp at hmem
  | ok r =>
    rw [hh] at hmem
    simp only at hmem
    cases hn : r.nextState with
    | none => rw [hn] at hmem; simp at hmem
    | some ns =>
      rw [hn] at hmem
      simp only at hmem
      rw [List.mem_singleton] at hmem
      subst hmem
      rfl

theorem nextInteraction_cancels_retired_witness :
    ({ RefinementState.new "" with tokenCancelled := true } : SessionState).tokenCancelled
      = true :=
  nextInteraction_cancels_retired transitionHandler [] Session.new (some "m")
    { RefinementState.new "" with tokenCancelled := true } (by decide)

/-- Claim C2: `send` never propagates a failure: when the internal step
throws, it returns exactly one `ai`-origin `message` interaction
describing the failure; otherwise it returns the internal step's
interactions. -/
theorem send_catches_all_failures (h : Handler) (files : List String)
    (s : Session) (msg : String) :
    (∀ e, (Session.sendUnsafe h files s msg).result = .error e →
      (Session.send h files s msg).result = .ok [errorInteraction e]) ∧
    (∀ is, (Session.sendUnsafe h files s msg).result = .ok is →
      (Session.send h files s msg).result = .ok is) := by
  constructor
  · intro e he
    simp [Session.send, he]
  · intro is his
    simp [Session.send, his]

theorem send_catches_all_failures_witness :
    (Session.send failHandler [] Session.new "hello").result =
        .ok [errorInteraction (.raised "E" "500" "boom")] ∧
    (Session.send idleHandler [] Session.new "CLEAR").result =
        .ok [clearAckInteraction] :=
  ⟨(send_catches_all_failures failHandler [] Session.new "hello").1
      (.raised "E" "500" "boom") (by decide),
   (send_catches_all_failures idleHandler [] Session.new "CLEAR").2
      [clearAckInteraction] (by decide)⟩

/-- Claim C5 is false as stated: when the handler has updated the
Refinement state's own approach (here to `"A"`) without signalling a
transition, `startCodegen` seeds the new `CodeGenState` from the session's
`approach` field (still `""`), not from the Refinement state's approach at
the moment of transition. -/
theorem startCodegen_stale_approach_cex :
    ((Session.send setupHandler [] Session.new "task").session)._state.approach = "A" ∧
    ((Session.send setupHandler [] Session.new "task").session)._state.conversationId =
        some "cid" ∧
    (Session.startCodegen idleHandler []
        (Session.send setupHandler [] Session.new "task").session).session._state.approach
      = "" ∧
    ("" : String) ≠ "A" := by
  decide

/-- Claim C5 (amended): when `startCodegen()` succeeds, the newly
installed `CodeGenState` is seeded with the current state's conversation
id and with the session's `approach` field — which may lag the Refinement
state's own approach — and the machine immediately performs one
interaction step with no message (observed here through `probeHandler`,
which reports the message it is given). -/
theorem startCodegen_seeds_conversation_and_pulses (files : List String)
    (s : Session) (cid : String) (hcid : s._state.conversationId = some cid)
    (hne : cid ≠ "") :
    (Session.startCodegen probeHandler files s).session._state =
        CodeGenState.new cid s.approach ∧
    (Session.startCodegen probeHandler files s).result =
        .ok [{ origin := "ai", type := "message", content := "NO_MESSAGE" }] ∧
    (Session.startCodegen probeHandler files s).retired = [s._state] := by
  unfold Session.startCodegen
  simp only [hcid]
  rw [if_neg hne]
  exact ⟨rfl, rfl, rfl⟩

theorem startCodegen_seeds_conversation_and_pulses_witness :
    (Session.startCodegen probeHandler []
        { _state := CodeGenState.new "c" "sa", task := "t", approach := "pa" }).session._state
      = CodeGenState.new "c" "pa" ∧
    (Session.startCodegen probeHandler []
        { _state := CodeGenState.new "c" "sa", task := "t", approach := "pa" }).result =
      .ok [{ origin := "ai", type := "message", content := "NO_MESSAGE" }] ∧
    (Session.startCodegen probeHandler []
        { _state := CodeGenState.new "c" "sa", task := "t", approach := "pa" }).retired =
      [CodeGenState.new "c" "sa"] :=
  startCodegen_seeds_conversation_and_pulses []
    { _state := CodeGenState.new "c" "sa", task := "t", approach := "pa" }
    "c" rfl (by decide)

/-- Claim C6: calling `startCodegen()` while the current state has no
conversation id throws `ConversationIdNotFoundError` and leaves the
session — its state, task and approach — unchanged. -/
theorem startCodegen_requires_conversationId (h : Handler) (files : List String)
    (s : Session) (hc : s._state.conversationIdTruthy = false) :
    Session.startCodegen h files s =
      { session := s, retired := [], result := .error .conversationIdNotFound } := by
  unfold Session.startCodegen
  cases hcid : s._state.conversationId with
  | none => rfl
  | some cid =>
    unfold SessionState.conversationIdTruthy at hc
    rw [hcid] at hc
    simp only at hc
    simp at hc
    simp [hc]

theorem startCodegen_requires_conversationId_witness :
    Session.startCodegen idleHandler [] Session.new =
      { session := Session.new, retired := [], result := .error .conversationIdNotFound } :=
  startCodegen_requires_conversationId idleHandler [] Session.new (by decide)

/-- Claim C7 is false as stated: a failed first turn leaves the session
with its task newly set to the failing message, not with the prior
(empty) task. -/
theorem send_failure_mutates_task_cex :
    Session.new.task = "" ∧
    (Session.send failHandler [] Session.new "hello").session.task = "hello" ∧
    (Session.send failHandler [] Session.new "hello").result =
        .ok [errorInteraction (.raised "E" "500" "boom")] ∧
    ("hello" : String) ≠ "" := by
  decide

/-- Claim C7 (amended): when the internal step throws, `send` leaves the
current state and the approach exactly as they were, returns the single
synthetic error interaction, and leaves the task unchanged unless it was
unset, in which case the failing turn's message has already become the
task (the first-message capture is not rolled back). -/
theorem send_failure_preserves_state (h : Handler) (files : List String)
    (s : Session) (msg : String) (e : SessionError)
    (he : (Session.sendUnsafe h files s msg).result = .error e) :
    (Session.send h files s msg).session._state = s._state ∧
    (Session.send h files s msg).session.approach = s.approach ∧
    (Session.send h files s msg).session.task =
        (if s.task = "" then msg else s.task) ∧
    (Session.send h files s msg).result = .ok [errorInteraction e] := by
  have hclear : msg ≠ "CLEAR" := by
    intro hq
    unfold Session.sendUnsafe at he
    rw [if_pos hq] at he
    simp at he
  have hsu : Session.sendUnsafe h files s msg =
      { session := if s.task = "" then { s with task := msg } else s,
        retired := [], result := .error e } := by
    unfold Session.sendUnsafe at he ⊢
    rw [if_neg hclear] at he ⊢
    simp only at he ⊢
    exact nextInteraction_error h files _ (some msg) e he
  by_cases ht : s.task = "" <;>
    refine ⟨?_, ?_, ?_, ?_⟩ <;> simp [Session.send, hsu, ht]

theorem send_failure_preserves_state_witness :
    (Session.send failHandler []
        { _state := RefinementState.new "r", task := "t0", approach := "ap" } "go").session._state
      = RefinementState.new "r" ∧
    (Session.send failHandler []
        { _state := RefinementState.new "r", task := "t0", approach := "ap" } "go").session.approach
      = "ap" ∧
    (Session.send failHandler []
        { _state := RefinementState.new "r", task := "t0", approach := "ap" } "go").session.task
      = "t0" ∧
    (Session.send failHandler []
        { _state := RefinementState.new "r", task := "t0", approach := "ap" } "go").result
      = .ok [errorInteraction (.raised "E" "500" "boom")] :=
  send_failure_preserves_state failHandler []
    { _state := RefinementState.new "r", task := "t0", approach := "ap" } "go"
    (.raised "E" "500" "boom") (by decide)

/-- Claim C8 is false as stated: when the first non-control message is the
empty string, the task stays empty, so a later non-control message still
overwrites the task. -/
theorem later_message_overwrites_task_cex :
    (Session.send idleHandler [] Session.new "").session.task = "" ∧
    (Session.send idleHandler []
        (Session.send idleHandler [] Session.new "").session "x").session.task = "x" ∧
    ("x" : String) ≠ "" := by
  decide

/-- Claim C8 (amended): a non-control message arriving while the task is
unset (empty) becomes the task, and one arriving while the task is
nonempty leaves it unchanged; in both cases the message is forwarded as
the turn's message to the active state's handler (observed here through
`probeHandler`, which reports the message it is given).  Because an empty
first message leaves the task empty, a later message can still set it. -/
theorem send_task_first_empty_capture (files : List String) (s : Session)
    (msg : String) (hclear : msg ≠ "CLEAR") :
    (∀ h : Handler, (Session.send h files s msg).session.task =
        (if s.task = "" then msg else s.task)) ∧
    (Session.send probeHandler files s msg).result =
        .ok [{ origin := "ai", type := "message", content := msg }] := by
  constructor
  · intro h
    rw [send_session_eq]
    unfold Session.sendUnsafe
    rw [if_neg hclear]
    simp only
    rw [nextInteraction_task]
    by_cases ht : s.task = "" <;> simp [ht]
  · unfold Session.send Session.sendUnsafe
    rw [if_neg hclear]
    simp [Session.nextInteraction, probeHandler]

theorem send_task_first_empty_capture_witness :
    (Session.send idleHandler [] Session.new "hello").session.task =
        (if Session.new.task = "" then "hello" else Session.new.task) ∧
    (Session.send probeHandler [] Session.new "hello").result =
        .ok [{ origin := "ai", type := "message", content := "hello" }] :=
  ⟨(send_task_first_empty_capture [] Session.new "hello" (by decide)).1 idleHandler,
   (send_task_first_empty_capture [] Session.new "hello" (by decide)).2⟩

/-! ## Diff model (`DiffModel.parseDiff`) -/

/-- Modelled from the spec: the Diff Model source (`DiffModel`,
`parseDiff` and the `ChangeNode` classes) is missing from src/ — only its
unit test is present — so the parser is modelled from the spec's
classification policy (section 4.3): a file section whose before path is
the conventional no-file marker is Added; one whose after path is the
marker is Deleted; otherwise it is Modified unless the target path does
not exist under the workspace root at parse time, in which case it is
reclassified as Added.  The conventional no-file marker of unified
diffs. -/
def noFileMarker : String := "/dev/null"

/-- The classification of one file section's change node. -/
inductive ChangeKind where
  | added
  | modified
  | deleted
deriving DecidableEq

/-- Modelled from the spec: one file section of a unified-diff patch,
reduced to the header data the classification policy reads — the "before"
and "after" file paths.  Hunk contents do not affect classification. -/
structure FileSection where
  beforePath : String
  afterPath : String
deriving DecidableEq

/-- Standard join of a relative path against the workspace root. -/
def joinPath (root rel : String) : String := root ++ "/" ++ rel

/-- The file path a section targets: the after path, or the before path
for a deletion (whose after path is the no-file marker). -/
def targetRelPath (sec : FileSection) : String :=
  if sec.afterPath = noFileMarker then sec.beforePath else sec.afterPath

/-- One parsed change node: its classification, the relative target path
and the absolute resolved workspace path. -/
structure ChangeNode where
  kind : ChangeKind
  relPath : String
  absPath : String
deriving DecidableEq

/-- Modelled from the spec: the classification policy of section 4.3,
over a workspace existence check `wsExists`. -/
def classifySection (wsExists : String → Bool) (root : String)
    (sec : FileSection) : ChangeKind :=
  if sec.beforePath = noFileMarker then .added
  else if sec.afterPath = noFileMarker then .deleted
  else if wsExists (joinPath root sec.afterPath) then .modified
  else .added

/-- The change node built for one file section. -/
def mkChangeNode (wsExists : String → Bool) (root : String)
    (sec : FileSection) : ChangeNode :=
  { kind := classifySection wsExists root sec,
    relPath := targetRelPath sec,
    absPath := joinPath root (targetRelPath sec) }

/-- The diff model: an ordered sequence of change nodes. -/
structure DiffModel where
  changes : List ChangeNode
deriving DecidableEq

/-- Modelled from the spec: `parseDiff` replaces the model's change
sequence with one freshly classified node per file section, preserving
the patch's file ordering. -/
def DiffModel.parseDiff (m : DiffModel) (patch : List FileSection)
    (wsExists : String → Bool) (root : String) : DiffModel :=
  { changes := patch.map (mkChangeNode wsExists root) }

/-- Claim C9 is false against the spec-modelled parser: a file section
marked as a deletion (after path is the no-file marker) whose resolved
target path does not exist is still classified Deleted, not Added — the
deletion header hint takes precedence over the workspace existence
check. -/
theorem parseDiff_deleted_section_cex :
    ((DiffModel.mk []).parseDiff [{ beforePath := "a.txt", afterPath := "/dev/null" }]
        (fun _ => false) "workspace").changes =
      [{ kind := .deleted, relPath := "a.txt", absPath := "workspace/a.txt" }] ∧
    ChangeKind.deleted ≠ ChangeKind.added := by
  decide

/-- Claim C9 (amended): for every file section the parser does not
classify as a deletion, if the section's resolved target path does not
exist under the workspace root at parse time, `parseDiff` classifies it
as Added regardless of the patch header hints; and the resulting change
sequence has exactly one node per file section of the patch. -/
theorem parseDiff_absent_target_added (wsExists : String → Bool) (root : String)
    (patch : List FileSection) :
    ((DiffModel.mk []).parseDiff patch wsExists root).changes.length = patch.length ∧
    ∀ node ∈ ((DiffModel.mk []).parseDiff patch wsExists root).changes,
      node.kind ≠ .deleted → wsExists node.absPath = false → node.kind = .added := by
  constructor
  · simp [DiffModel.parseDiff]
  · intro node hmem hdel hex
    simp only [DiffModel.parseDiff, List.mem_map] at hmem
    obtain ⟨sec, hsec, hnode⟩ := hmem
    subst hnode
    by_cases hb : sec.beforePath = noFileMarker
    · simp [mkChangeNode, classifySection, hb]
    · by_cases ha : sec.afterPath = noFileMarker
      · exact absurd (by simp [mkChangeNode, classifySection, hb, ha]) hdel
      · have hex2 : wsExists (joinPath root sec.afterPath) = false := by
          simpa [mkChangeNode, targetRelPath, ha] using hex
        simp [mkChangeNode, classifySection, hb, ha, hex2]

theorem parseDiff_absent_target_added_witness :
    ((DiffModel.mk []).parseDiff [{ beforePath := "b.txt", afterPath := "b.txt" }]
        (fun _ => false) "ws").changes.length =
      ([{ beforePath := "b.txt", afterPath := "b.txt" }] : List FileSection).length ∧
    (mkChangeNode (fun _ => false) "ws" { beforePath := "b.txt", afterPath := "b.txt" }).kind
      = ChangeKind.added :=
  ⟨(parseDiff_absent_target_added (fun _ => false) "ws"
      [{ beforePath := "b.txt", afterPath := "b.txt" }]).1,
   (parseDiff_absent_target_added (fun _ => false) "ws"
      [{ beforePath := "b.txt", afterPath := "b.txt" }]).2
      (mkChangeNode (fun _ => false) "ws" { beforePath := "b.txt", afterPath := "b.txt" })
      (by decide) (by decide) (by decide)⟩
